import Mathlib

/-!
Verification development for the `densityplot` plotting module
(`src/arviz/plots/densityplot.py`).

The module consists of a figure orchestrator `densityplot` and a
per-variable renderer `_d_helper`.  We embed both shallowly:

* datasets are draw-indexed collections of labelled variables;
* the external collaborators (`convert_to_xarray`, `xarray_var_iter`,
  `make_label`, `fast_kde`, `hpd`) live outside the analysed source, so
  they are either modelled from the spec or abstracted as function
  parameters;
* the orchestrator is embedded as a pure function returning the ordered
  trace of its observable steps together with either the produced figure
  data or the error it raises, mirroring the statement order of the
  Python source.
-/

namespace Arviz

/-- Numpy dtype kinds as inspected by `_d_helper` (`vec.dtype.kind`).
`f` is floating point, `i` signed integer, `u` unsigned integer,
`b` boolean, `c` complex, `other` anything else. -/
inductive DtypeKind
  | f | i | u | b | c | other
  deriving DecidableEq, Repr

/-- A flattened 1-D numeric vector together with its dtype kind, the shape
of the `vec` argument of `_d_helper`.  Values are modelled as rationals. -/
structure Vec where
  kind : DtypeKind
  values : List ℚ
  deriving DecidableEq, Repr

/-- One variable of a dataset: its name, the index selection identifying
this scalar instance, its dtype kind, and its draw-indexed values
(pairs of draw coordinate and sample value). -/
structure VarEntry where
  name : String
  selection : List (String × Nat)
  kind : DtypeKind
  values : List (Nat × ℚ)
  deriving DecidableEq, Repr

/-- A sample collection: the values of its `draw` coordinate and its
variables. -/
structure Dataset where
  draws : List Nat
  vars : List VarEntry
  deriving DecidableEq, Repr

/-- Modelled from the spec: `convert_to_xarray` (external collaborator,
not under `src/`) normalises an arbitrary supported input representation
into a canonical labelled collection.  On an already-canonical dataset it
is the identity. -/
def convert_to_xarray (d : Dataset) : Dataset := d

/-- The burn-in step of `densityplot`:
`data.where(data.draw >= skip_first).dropna('draw')` keeps exactly the
draws whose `draw` coordinate is at least `skip_first`, in every
variable, producing a new dataset (xarray `where`/`dropna` return fresh
objects; the input is not modified). -/
def burnIn (d : Dataset) (skip : Nat) : Dataset :=
  { draws := d.draws.filter (fun i => decide (skip ≤ i))
    vars := d.vars.map (fun v =>
      { v with values := v.values.filter (fun p => decide (skip ≤ p.1)) }) }

/-- Modelled from the spec: `xarray_var_iter` (external collaborator, not
under `src/`) yields the `(variable name, index selection, values)`
triples of a collection, optionally restricted to a name filter. -/
def xarray_var_iter (d : Dataset) (var_names : Option (List String)) :
    List VarEntry :=
  match var_names with
  | none => d.vars
  | some ns => d.vars.filter (fun v => ns.contains v.name)

/-- Modelled from the spec: `make_label` (external collaborator, not
under `src/`) combines a variable name and an index selection into a
deterministic display string, identical across datasets. -/
def make_label (name : String) (sel : List (String × Nat)) : String :=
  name ++ String.join (sel.map (fun p => " " ++ p.1 ++ "=" ++ toString p.2))

/-- The `data` argument of `densityplot`: a single convertible object or
a list of them. -/
inductive DataArg
  | single (d : Dataset)
  | many (ds : List Dataset)
  deriving Repr

/-- The `colors` argument of `densityplot`: a single string or an
explicit list. -/
inductive ColorsArg
  | str (s : String)
  | list (l : List String)
  deriving DecidableEq, Repr

/-- Color resolution of `densityplot` (source lines 83-86): the sentinel
string `cycle` yields `C0`..`C9` by dataset index modulo 10, any other
string is broadcast, an explicit list is taken as-is. -/
def resolveColors (c : ColorsArg) (n : Nat) : List String :=
  match c with
  | ColorsArg.str s =>
      if s = "cycle" then (List.range n).map (fun i => "C" ++ toString (i % 10))
      else List.replicate n s
  | ColorsArg.list l => l

/-- Label synthesis of `densityplot` (source lines 74-78) when
`data_labels` is absent: stringified indices for more than one dataset,
a single empty string otherwise. -/
def synthLabels (n : Nat) : List String :=
  if 1 < n then (List.range n).map (fun i => toString i) else [""]

/-- Observable steps of a `densityplot` call, in execution order. -/
inductive Event
  | converted
  | burnFiltered
  | figureCreated (npanels : Nat)
  | legendAdded (nentries : Nat)
  deriving DecidableEq, Repr

/-- The errors `densityplot` can raise: the two `ValueError`s of its
validation phase, and the `IndexError` of an out-of-range `colors[m_idx]`
lookup. -/
inductive PlotError
  | invalidPointEstimate (pe : Option String)
  | labelCountMismatch (nlabels ndata : Nat)
  | colorIndexOOB (mIdx : Nat)
  deriving DecidableEq, Repr

/-- The figure data produced by a successful `densityplot` call: the
panel labels in allocation order, the per-variable render calls
`(dataset index, panel label, color)` in execution order, and the legend
(panel index it is attached to, its `(label, color)` entries) when one
is drawn. -/
structure Output where
  panels : List String
  rendered : List (Nat × String × String)
  legend : Option (Nat × List (String × String))
  deriving DecidableEq, Repr

/-- The inner render loop body for one dataset (source lines 103-106):
each variable instance triggers `_d_helper(values, label, colors[m_idx], ...)`;
the `colors[m_idx]` lookup raises an `IndexError` when out of range. -/
def renderVars (colors : List String) (mIdx : Nat) :
    List VarEntry → Except PlotError (List (Nat × String × String))
  | [] => Except.ok []
  | v :: vs =>
      match colors[mIdx]? with
      | none => Except.error (PlotError.colorIndexOOB mIdx)
      | some c =>
          match renderVars colors mIdx vs with
          | Except.error e => Except.error e
          | Except.ok rs =>
              Except.ok ((mIdx, make_label v.name v.selection, c) :: rs)

/-- The outer render loop (source lines 102-106): datasets in order,
with their enumeration index. -/
def renderAll (colors : List String) (mIdx : Nat) :
    List (List VarEntry) → Except PlotError (List (Nat × String × String))
  | [] => Except.ok []
  | ps :: rest =>
      match renderVars colors mIdx ps with
      | Except.error e => Except.error e
      | Except.ok rs =>
          match renderAll colors (mIdx + 1) rest with
          | Except.error e => Except.error e
          | Except.ok rs2 => Except.ok (rs ++ rs2)

/-- The legend loop (source lines 109-111): one invisible plot entry per
data label, coloured by `colors[m_idx]` (again an indexed lookup). -/
def legendEntries (colors : List String) (mIdx : Nat) :
    List String → Except PlotError (List (String × String))
  | [] => Except.ok []
  | lb :: rest =>
      match colors[mIdx]? with
      | none => Except.error (PlotError.colorIndexOOB mIdx)
      | some c =>
          match legendEntries colors (mIdx + 1) rest with
          | Except.error e => Except.error e
          | Except.ok es => Except.ok ((lb, c) :: es)

/-- Shallow embedding of `densityplot` (source lines 63-115), keeping
the statement order of the Python source: normalise and convert the
input, burn-in filter, validate `point_estimate`, resolve `data_labels`,
resolve `colors`, extract variable instances, deduplicate display
labels, create the figure (one panel per distinct label), run the render
loops, and attach a legend to the first panel when more than one dataset
was given.  The first component is the trace of observable steps up to
the point where the call returned or raised. -/
def densityplot (data : DataArg) (data_labels : Option (List String))
    (var_names : Option (List String)) (point_estimate : Option String)
    (colors : ColorsArg) (skip_first : Nat) :
    List Event × Except PlotError Output :=
  let datasets0 :=
    match data with
    | DataArg.single d => [convert_to_xarray d]
    | DataArg.many ds => ds.map convert_to_xarray
  let datasets := datasets0.map (fun d => burnIn d skip_first)
  let tr0 := [Event.converted, Event.burnFiltered]
  if point_estimate = some "mean" ∨ point_estimate = some "median" ∨
      point_estimate = none then
    let n_data := datasets.length
    let labelsE : Except PlotError (List String) :=
      match data_labels with
      | none => Except.ok (synthLabels n_data)
      | some l =>
          if l.length = n_data then Except.ok l
          else Except.error (PlotError.labelCountMismatch l.length n_data)
    match labelsE with
    | Except.error e => (tr0, Except.error e)
    | Except.ok labels =>
        let colorsR := resolveColors colors n_data
        let to_plot := datasets.map (fun d => xarray_var_iter d var_names)
        let all_labels :=
          ((to_plot.map (fun ps =>
            ps.map (fun v => make_label v.name v.selection))).flatten).dedup
        let tr1 := tr0 ++ [Event.figureCreated all_labels.length]
        match renderAll colorsR 0 to_plot with
        | Except.error e => (tr1, Except.error e)
        | Except.ok rendered =>
            if 1 < n_data then
              match legendEntries colorsR 0 labels with
              | Except.error e => (tr1, Except.error e)
              | Except.ok es =>
                  (tr1 ++ [Event.legendAdded es.length],
                   Except.ok ⟨all_labels, rendered, some (0, es)⟩)
            else (tr1, Except.ok ⟨all_labels, rendered, none⟩)
  else (tr0, Except.error (PlotError.invalidPointEstimate point_estimate))

/-! ### Per-variable renderer `_d_helper` (source lines 147-172) -/

/-- `np.linspace lo hi n`: `n` evenly spaced points from `lo` to `hi`
inclusive (for `n = 1`, just `lo`; rational division by zero is zero,
matching that case). -/
def linspace (lo hi : ℚ) (n : Nat) : List ℚ :=
  (List.range n).map (fun i : Nat => lo + (i : ℚ) * (hi - lo) / ((n : ℚ) - 1))

/-- The continuous branch's restricted domain (source lines 148-151):
the evenly spaced KDE domain `x = linspace lower upper len(density)`
restricted by the cut `(x >= hpd_[0]) & (x <= hpd_[1])`. -/
def continuousCut (nDensity : Nat) (lower upper hpdLo hpdHi : ℚ) : List ℚ :=
  (linspace lower upper nDensity).filter
    (fun p => decide (hpdLo ≤ p ∧ p ≤ hpdHi))

/-- Python `range a b`: the integers `a, a+1, ..., b-1`. -/
def intRange (a b : ℤ) : List ℤ :=
  (List.range (b - a).toNat).map (fun i : Nat => a + (i : ℤ))

/-- The discrete branch's histogram bin edges (source line 167):
`bins = range(xmin, xmax + 2)` where `(xmin, xmax)` is the credible
interval. -/
def discreteBins (xmin xmax : ℤ) : List ℤ := intRange xmin (xmax + 2)

/-- What `_d_helper` draws for one vector: either the restricted KDE
curve domain (continuous branch) or the histogram bin edges (discrete
branch). -/
inductive RenderBranch
  | continuous (xcut : List ℚ)
  | discrete (bins : List ℤ)
  deriving DecidableEq, Repr

/-- Shallow embedding of the branching core of `_d_helper` (source lines
147-172).  The external collaborators are parameters: `fkde` is
`fast_kde` (density values, lower, upper), `hpdF` is `hpd` on a float
vector, `hpdZ` is `hpd` on an integer-typed vector (whose bounds are
elements of the vector, hence integers).  The KDE branch is taken
exactly when the dtype kind is `f`; every other kind falls to the
histogram branch. -/
def d_helper (fkde : List ℚ → List ℚ × ℚ × ℚ) (hpdF : List ℚ → ℚ × ℚ)
    (hpdZ : List ℚ → ℤ × ℤ) (vec : Vec) : RenderBranch :=
  if vec.kind = DtypeKind.f then
    let r := fkde vec.values
    let h := hpdF vec.values
    RenderBranch.continuous (continuousCut r.1.length r.2.1 r.2.2 h.1 h.2)
  else
    let h := hpdZ vec.values
    RenderBranch.discrete (discreteBins h.1 h.2)

/-- Whether the `data_labels` argument passes the length validation of
`densityplot` (absent labels always pass; explicit ones must match the
dataset count). -/
def labelsOk (dl : Option (List String)) (n : Nat) : Prop :=
  match dl with
  | none => True
  | some l => l.length = n

/-- The display labels of the panels `densityplot` allocates for a list
of datasets: the labels of all variable instances across the (converted,
burn-in filtered) datasets, deduplicated. -/
def panelLabels (ds : List Dataset) (vn : Option (List String)) (skip : Nat) :
    List String :=
  ((ds.map (fun d =>
    (xarray_var_iter (burnIn (convert_to_xarray d) skip) vn).map
      (fun v => make_label v.name v.selection))).flatten).dedup

/-- A concrete scalar float variable named `mu`, used in witnesses. -/
def exampleVarA : VarEntry :=
  { name := "mu", selection := [], kind := DtypeKind.f
    values := [(0, 1), (1, 2), (2, 3)] }

/-- A second concrete variable with the same name `mu` (hence the same
display label) but different values, used in witnesses. -/
def exampleVarB : VarEntry :=
  { name := "mu", selection := [], kind := DtypeKind.f
    values := [(0, 4), (1, 5), (2, 6)] }

/-- A concrete dataset with three draws and the single variable `mu`. -/
def exampleA : Dataset := { draws := [0, 1, 2], vars := [exampleVarA] }

/-- A second concrete dataset sharing the display label `mu` with
`exampleA`. -/
def exampleB : Dataset := { draws := [0, 1, 2], vars := [exampleVarB] }

/-! ### Helper lemmas -/

lemma intRange_length (a b : ℤ) : (intRange a b).length = (b - a).toNat := by
  unfold intRange
  rw [List.length_map, List.length_range]

lemma intRange_getElem? (a b : ℤ) (i : Nat) (h : i < (b - a).toNat) :
    (intRange a b)[i]? = some (a + (i : ℤ)) := by
  unfold intRange
  rw [List.getElem?_map, List.getElem?_range h]
  rfl

lemma linspace_mem (lo hi : ℚ) (n : Nat) (hle : lo ≤ hi) :
    ∀ p ∈ linspace lo hi n, lo ≤ p ∧ p ≤ hi := by
  intro p hp
  rw [linspace, List.mem_map] at hp
  obtain ⟨i, hmem, rfl⟩ := hp
  rw [List.mem_range] at hmem
  by_cases hn : n ≤ 1
  · have hi0 : i = 0 := by omega
    subst hi0
    simp [hle]
  · have hn2 : 2 ≤ n := by omega
    have hd : (0 : ℚ) < (n : ℚ) - 1 := by
      have h2 : (2 : ℚ) ≤ (n : ℚ) := by exact_mod_cast hn2
      linarith
    have hiq : (i : ℚ) ≤ (n : ℚ) - 1 := by
      have h1 : ((i + 1 : ℕ) : ℚ) ≤ (n : ℚ) := by exact_mod_cast hmem
      push_cast at h1
      linarith
    have hi0 : (0 : ℚ) ≤ (i : ℚ) := Nat.cast_nonneg i
    have hc0 : 0 ≤ (i : ℚ) * (hi - lo) / ((n : ℚ) - 1) :=
      div_nonneg (mul_nonneg hi0 (by linarith)) (le_of_lt hd)
    have hc1 : (i : ℚ) * (hi - lo) / ((n : ℚ) - 1) ≤ hi - lo := by
      rw [div_le_iff₀ hd, mul_comm (hi - lo) ((n : ℚ) - 1)]
      exact mul_le_mul_of_nonneg_right hiq (sub_nonneg.mpr hle)
    constructor <;> linarith

lemma continuousCut_subset (nDensity : Nat) (lower upper hpdLo hpdHi : ℚ)
    (hle : lower ≤ upper) :
    ∀ p ∈ continuousCut nDensity lower upper hpdLo hpdHi,
      lower ≤ p ∧ p ≤ upper := by
  intro p hp
  exact linspace_mem lower upper nDensity hle p (List.mem_of_mem_filter hp)

/-! ### Claims -/

/-- Claim C6: For a discrete (integer-typed) vector, the histogram bin
edges are `range(xmin, xmax + 2)`: unit-width bins whose edges start at
the credible interval's lower bound `xmin`, step by one, and end at
`xmax + 1`, so for a credible interval `[2, 7]` the bins cover `[2, 8]`. -/
theorem d_helper_discrete_bins_span (xmin xmax : ℤ) (h : xmin ≤ xmax) :
    (∀ i : Nat, i < (discreteBins xmin xmax).length →
      (discreteBins xmin xmax)[i]? = some (xmin + (i : ℤ))) ∧
    (discreteBins xmin xmax).head? = some xmin ∧
    (discreteBins xmin xmax).getLast? = some (xmax + 1) ∧
    (discreteBins xmin xmax).length = (xmax + 2 - xmin).toNat := by
  have hlen : (discreteBins xmin xmax).length = (xmax + 2 - xmin).toNat := by
    simp [discreteBins, intRange_length]
  have hget : ∀ i : Nat, i < (discreteBins xmin xmax).length →
      (discreteBins xmin xmax)[i]? = some (xmin + (i : ℤ)) := by
    intro i hi
    rw [hlen] at hi
    exact intRange_getElem? xmin (xmax + 2) i hi
  refine ⟨hget, ?_, ?_, hlen⟩
  · rw [List.head?_eq_getElem?]
    have h0 : 0 < (discreteBins xmin xmax).length := by omega
    rw [hget 0 h0]
    simp
  · rw [List.getLast?_eq_getElem?]
    have hpos : 0 < (discreteBins xmin xmax).length := by omega
    have hlt : (discreteBins xmin xmax).length - 1 <
        (discreteBins xmin xmax).length := by omega
    rw [hget _ hlt, hlen]
    congr 1
    omega

/-- Claim C6 witness: For the credible interval `[2, 7]` the bin edges
run from `2` to `8` in unit steps: the bins cover `[2, 8]`. -/
theorem d_helper_discrete_bins_span_witness :
    (2 : ℤ) ≤ 7 ∧
      ((discreteBins 2 7).head? = some 2 ∧
       (discreteBins 2 7).getLast? = some 8) :=
  ⟨by decide,
   ⟨(d_helper_discrete_bins_span 2 7 (by decide)).2.1,
    (d_helper_discrete_bins_span 2 7 (by decide)).2.2.1⟩⟩

/-- Claim C8: For a floating-point vector, the restricted curve domain
(the evenly spaced KDE domain points inside the credible interval) is a
subset of the full domain `[lower, upper]`, and the rendered interval's
bounds — the first and last restricted domain points — lie within the
support `[lower, upper]` of the computed density. -/
theorem d_helper_continuous_domain (nDensity : Nat)
    (lower upper hpdLo hpdHi : ℚ) (hle : lower ≤ upper) :
    (∀ p ∈ continuousCut nDensity lower upper hpdLo hpdHi,
      lower ≤ p ∧ p ≤ upper) ∧
    (∀ a, (continuousCut nDensity lower upper hpdLo hpdHi).head? = some a →
      lower ≤ a ∧ a ≤ upper) ∧
    (∀ b, (continuousCut nDensity lower upper hpdLo hpdHi).getLast? = some b →
      lower ≤ b ∧ b ≤ upper) := by
  have hsub := continuousCut_subset nDensity lower upper hpdLo hpdHi hle
  refine ⟨hsub, ?_, ?_⟩
  · intro a ha
    exact hsub a (List.mem_of_mem_head? (by simp [ha]))
  · intro b hb
    exact hsub b (List.mem_of_mem_getLast? (by simp [hb]))

/-- Claim C8 witness: With density length 5, full domain `[0, 1]` and
credible interval `[1/5, 4/5]`, the first restricted domain point is
`1/4` and it lies in `[0, 1]`. -/
theorem d_helper_continuous_domain_witness :
    (0 : ℚ) ≤ 1 ∧ ((0 : ℚ) ≤ 1/4 ∧ (1/4 : ℚ) ≤ 1) :=
  ⟨by norm_num,
   (d_helper_continuous_domain 5 0 1 (1/5) (4/5) (by norm_num)).1 (1/4)
     (by
       simp only [continuousCut, linspace, List.mem_filter, List.mem_map,
         List.mem_range, decide_eq_true_eq]
       exact ⟨⟨1, by norm_num, by norm_num⟩, by norm_num⟩)⟩

/-- Claim C9: The per-variable renderer takes the continuous (KDE) branch
iff the vector's dtype kind is floating point; every non-float kind —
including boolean — is rendered by the discrete histogram branch. -/
theorem d_helper_branch_iff_float
    (fkde : List ℚ → List ℚ × ℚ × ℚ) (hpdF : List ℚ → ℚ × ℚ)
    (hpdZ : List ℚ → ℤ × ℤ) (vec : Vec) :
    ((∃ xs, d_helper fkde hpdF hpdZ vec = RenderBranch.continuous xs) ↔
      vec.kind = DtypeKind.f) ∧
    (vec.kind ≠ DtypeKind.f →
      ∃ bins, d_helper fkde hpdF hpdZ vec = RenderBranch.discrete bins) := by
  constructor
  · constructor
    · intro ⟨xs, hxs⟩
      by_contra hne
      rw [d_helper, if_neg hne] at hxs
      exact RenderBranch.noConfusion hxs
    · intro hf
      exact ⟨_, by rw [d_helper, if_pos hf]⟩
  · intro hne
    exact ⟨_, by rw [d_helper, if_neg hne]⟩

/-- Claim C9 witness: A boolean-typed vector is handled by the discrete
branch. -/
theorem d_helper_branch_iff_float_witness :
    (Vec.mk DtypeKind.b [0, 1]).kind ≠ DtypeKind.f ∧
    ∃ bins, d_helper (fun _ => ([], 0, 0)) (fun _ => (0, 0))
        (fun _ => (0, 1)) (Vec.mk DtypeKind.b [0, 1]) =
      RenderBranch.discrete bins :=
  ⟨by decide,
   (d_helper_branch_iff_float (fun _ => ([], 0, 0)) (fun _ => (0, 0))
      (fun _ => (0, 1)) (Vec.mk DtypeKind.b [0, 1])).2 (by decide)⟩

/-! ### Orchestrator lemmas -/

lemma renderVars_ok (colors : List String) (m : Nat) (c : String)
    (hc : colors[m]? = some c) (ps : List VarEntry) :
    renderVars colors m ps =
      Except.ok (ps.map (fun v => (m, make_label v.name v.selection, c))) := by
  induction ps with
  | nil => rfl
  | cons v vs ih => simp [renderVars, hc, ih]

lemma renderVars_oob (colors : List String) (m : Nat)
    (hm : colors.length ≤ m) (v : VarEntry) (vs : List VarEntry) :
    renderVars colors m (v :: vs) =
      Except.error (PlotError.colorIndexOOB m) := by
  have hnone : colors[m]? = none := List.getElem?_eq_none hm
  simp [renderVars, hnone]

lemma renderAll_err (colors : List String) :
    ∀ (pss : List (List VarEntry)) (m : Nat),
      (∀ ps ∈ pss, ps ≠ []) → colors.length < m + pss.length →
      m ≤ colors.length →
      renderAll colors m pss =
        Except.error (PlotError.colorIndexOOB colors.length) := by
  intro pss
  induction pss with
  | nil =>
      intro m _ hlt hle
      simp at hlt
      omega
  | cons ps rest ih =>
      intro m hne hlt hle
      rcases Nat.lt_or_ge m colors.length with hm | hm
      · obtain ⟨c, hc⟩ : ∃ c, colors[m]? = some c :=
          ⟨colors[m], List.getElem?_eq_getElem hm⟩
        have hrest := ih (m + 1)
          (fun p hp => hne p (List.mem_cons_of_mem _ hp))
          (by simp at hlt ⊢; omega) (by omega)
        simp [renderAll, renderVars_ok colors m c hc ps, hrest]
      · have hm' : m = colors.length := by omega
        subst hm'
        have hne0 : ps ≠ [] := hne ps (List.mem_cons_self _ _)
        cases ps with
        | nil => exact absurd rfl hne0
        | cons v vs =>
            simp [renderAll, renderVars_oob colors _ (le_refl _) v vs]

lemma legendEntries_length (colors : List String) :
    ∀ (lbs : List String) (m : Nat) (es : List (String × String)),
      legendEntries colors m lbs = Except.ok es → es.length = lbs.length := by
  intro lbs
  induction lbs with
  | nil =>
      intro m es h
      simp only [legendEntries] at h
      cases h
      rfl
  | cons lb rest ih =>
      intro m es h
      simp only [legendEntries] at h
      cases hc : colors[m]? with
      | none => rw [hc] at h; cases h
      | some c =>
          rw [hc] at h
          cases hr : legendEntries colors (m + 1) rest with
          | error e => rw [hr] at h; cases h
          | ok es2 =>
              rw [hr] at h
              cases h
              simp [ih (m + 1) es2 hr]

/-! ### Orchestrator claims -/

/-- Claim C1 counterexample: at a concrete call with
`point_estimate = "mode"`, the error is indeed raised, but the trace
shows the datasets were already converted and burn-in filtered before
it: the validation does not happen before those computations, contrary
to the claim. -/
theorem densityplot_invalid_pe_after_burnin_counterexample :
    densityplot (DataArg.single exampleA) none none (some "mode")
        (ColorsArg.str "cycle") 0 =
      ([Event.converted, Event.burnFiltered],
       Except.error (PlotError.invalidPointEstimate (some "mode"))) := by
  rfl

/-- Claim C1 (amended): for every call with a `point_estimate` outside
`{mean, median, absent}`, `densityplot` raises the descriptive
configuration error before any plotting occurs — the trace contains no
figure creation, rendering or legend step — but after the input
datasets have been converted and burn-in filtered. -/
theorem densityplot_invalid_pe_before_plotting (data : DataArg)
    (dl : Option (List String)) (vn : Option (List String))
    (pe : Option String) (c : ColorsArg) (skip : Nat)
    (hpe : ¬(pe = some "mean" ∨ pe = some "median" ∨ pe = none)) :
    densityplot data dl vn pe c skip =
      ([Event.converted, Event.burnFiltered],
       Except.error (PlotError.invalidPointEstimate pe)) := by
  simp only [densityplot, if_neg hpe]

/-- Claim C1 (amended) witness: the call with `point_estimate = "mode"`
stops with the error and a trace of conversion and burn-in only. -/
theorem densityplot_invalid_pe_before_plotting_witness :
    ¬((some "mode" : Option String) = some "mean" ∨
        (some "mode" : Option String) = some "median" ∨
        (some "mode" : Option String) = none) ∧
    densityplot (DataArg.many [exampleA, exampleB]) none none (some "mode")
        (ColorsArg.str "cycle") 1 =
      ([Event.converted, Event.burnFiltered],
       Except.error (PlotError.invalidPointEstimate (some "mode"))) :=
  ⟨by decide,
   densityplot_invalid_pe_before_plotting _ _ _ _ _ _ (by decide)⟩

/-- Claim C2: the `colors` argument resolves as follows — the sentinel
`cycle` yields the palette entries `C0`..`C9` selected by dataset index
modulo 10, any other single string is broadcast to `n` copies, and an
explicit list is used as-is with no length validation. -/
theorem densityplot_colors_resolution (n : Nat) (s : String)
    (l : List String) (hs : s ≠ "cycle") :
    resolveColors (ColorsArg.str "cycle") n =
      (List.range n).map (fun i => "C" ++ toString (i % 10)) ∧
    (∀ i, i < n → (resolveColors (ColorsArg.str "cycle") n)[i]? =
      some ("C" ++ toString (i % 10))) ∧
    resolveColors (ColorsArg.str s) n = List.replicate n s ∧
    resolveColors (ColorsArg.list l) n = l := by
  refine ⟨by simp [resolveColors], ?_, by simp [resolveColors, hs], rfl⟩
  intro i hi
  simp [resolveColors, List.getElem?_range hi]

/-- Claim C2 witness: a non-sentinel single color broadcasts, and the
cycle palette's entry 12 (for 13 datasets) is `C2`. -/
theorem densityplot_colors_resolution_witness :
    "k" ≠ "cycle" ∧
    resolveColors (ColorsArg.str "k") 3 = List.replicate 3 "k" ∧
    (resolveColors (ColorsArg.str "cycle") 13)[12]? = some ("C" ++ toString (12 % 10)) :=
  ⟨by decide,
   (densityplot_colors_resolution 3 "k" ["r", "g"] (by decide)).2.2.1,
   (densityplot_colors_resolution 13 "k" [] (by decide)).2.1 12 (by decide)⟩

/-- Claim C3: with `data_labels` absent, the synthesized labels are the
stringified indices `["0", ..., "N-1"]` when `N > 1`, and `[""]` when
`N = 1`. -/
theorem densityplot_synthesized_labels (n : Nat) (hn : 1 < n) :
    synthLabels n = (List.range n).map (fun i => toString i) ∧
    (∀ i, i < n → (synthLabels n)[i]? = some (toString i)) ∧
    synthLabels 1 = [""] := by
  refine ⟨by simp [synthLabels, hn], ?_, by simp [synthLabels]⟩
  intro i hi
  simp [synthLabels, hn, List.getElem?_range hi]

/-- Claim C3 witness: for three datasets the labels are `["0","1","2"]`;
for one dataset the label is the empty string. -/
theorem densityplot_synthesized_labels_witness :
    1 < 3 ∧ synthLabels 1 = [""] ∧ synthLabels 3 = ["0", "1", "2"] :=
  ⟨by decide, (densityplot_synthesized_labels 3 (by decide)).2.2, by decide⟩

/-- Claim C4: a `data_labels` list whose length differs from the number
of datasets makes `densityplot` raise the configuration error, with no
figure-creation step in the trace (the figure is created only later). -/
theorem densityplot_label_mismatch_rejected (ds : List Dataset)
    (l : List String) (vn : Option (List String)) (pe : Option String)
    (c : ColorsArg) (skip : Nat)
    (hpe : pe = some "mean" ∨ pe = some "median" ∨ pe = none)
    (hlen : l.length ≠ ds.length) :
    densityplot (DataArg.many ds) (some l) vn pe c skip =
      ([Event.converted, Event.burnFiltered],
       Except.error (PlotError.labelCountMismatch l.length ds.length)) ∧
    ∀ k, Event.figureCreated k ∉
      (densityplot (DataArg.many ds) (some l) vn pe c skip).1 := by
  have hmain : densityplot (DataArg.many ds) (some l) vn pe c skip =
      ([Event.converted, Event.burnFiltered],
       Except.error (PlotError.labelCountMismatch l.length ds.length)) := by
    simp only [densityplot, if_pos hpe, List.length_map]
    rw [if_neg hlen]
  refine ⟨hmain, ?_⟩
  intro k
  rw [hmain]
  simp

/-- Claim C4 witness: one label for two datasets is rejected before any
figure is created. -/
theorem densityplot_label_mismatch_rejected_witness :
    ((none : Option String) = some "mean" ∨
      (none : Option String) = some "median" ∨
      (none : Option String) = none) ∧
    ["a"].length ≠ [exampleA, exampleB].length ∧
    densityplot (DataArg.many [exampleA, exampleB]) (some ["a"]) none none
        (ColorsArg.str "cycle") 0 =
      ([Event.converted, Event.burnFiltered],
       Except.error (PlotError.labelCountMismatch 1 2)) :=
  ⟨Or.inr (Or.inr rfl), by decide,
   (densityplot_label_mismatch_rejected [exampleA, exampleB] ["a"] none none
      (ColorsArg.str "cycle") 0 (Or.inr (Or.inr rfl)) (by decide)).1⟩

/-- Claim C7: the burn-in step keeps exactly the draws whose draw index
is at least `skip_first` — in the draw coordinate and in every
variable's values — and it operates on a copy: the result is a fresh
dataset whose draw list is a sublist of the unchanged input. -/
theorem densityplot_burn_in (d : Dataset) (skip : Nat) :
    (∀ i, i ∈ (burnIn d skip).draws ↔ i ∈ d.draws ∧ skip ≤ i) ∧
    List.Sublist (burnIn d skip).draws d.draws ∧
    (∀ v ∈ d.vars,
      { v with values := v.values.filter (fun p => decide (skip ≤ p.1)) } ∈
        (burnIn d skip).vars ∧
      ∀ p, p ∈ v.values.filter (fun p => decide (skip ≤ p.1)) ↔
        p ∈ v.values ∧ skip ≤ p.1) := by
  refine ⟨?_, ?_, ?_⟩
  · intro i
    simp [burnIn, List.mem_filter]
  · exact List.filter_sublist d.draws
  · intro v hv
    constructor
    · exact List.mem_map_of_mem _ hv
    · intro p
      simp [List.mem_filter]

/-- Claim C7 witness: burn-in with `skip_first = 1` on the example
dataset keeps draws 1 and 2 and drops draw 0, in the draw coordinate
(shown via the characterisation at draws 0 and 1) and in the variable
values. -/
theorem densityplot_burn_in_witness :
    ((1 : Nat) ∈ (burnIn exampleA 1).draws ↔ 1 ∈ exampleA.draws ∧ 1 ≤ 1) ∧
    ({ exampleVarA with
        values := exampleVarA.values.filter (fun p => decide (1 ≤ p.1)) } ∈
      (burnIn exampleA 1).vars ∧
      ∀ p, p ∈ exampleVarA.values.filter (fun p => decide (1 ≤ p.1)) ↔
        p ∈ exampleVarA.values ∧ 1 ≤ p.1) :=
  ⟨(densityplot_burn_in exampleA 1).1 1,
   (densityplot_burn_in exampleA 1).2.2 exampleVarA (by decide)⟩

/-- Claim C10: an explicitly supplied colors list shorter than the
number of datasets passes color resolution unvalidated, and the call
then fails with an out-of-range `colors[m_idx]` lookup during
per-dataset rendering — at index `len(colors)`, the first dataset index
past the list — after the figure and its panels have already been
allocated (the figure-creation step is in the trace). -/
theorem densityplot_short_colors_oob (ds : List Dataset) (cl : List String)
    (dl : Option (List String)) (vn : Option (List String))
    (pe : Option String) (skip : Nat)
    (hpe : pe = some "mean" ∨ pe = some "median" ∨ pe = none)
    (hlab : labelsOk dl ds.length)
    (hne : ∀ d ∈ ds,
      xarray_var_iter (burnIn (convert_to_xarray d) skip) vn ≠ [])
    (hshort : cl.length < ds.length) :
    (densityplot (DataArg.many ds) dl vn pe (ColorsArg.list cl) skip).2 =
      Except.error (PlotError.colorIndexOOB cl.length) ∧
    Event.figureCreated (panelLabels ds vn skip).length ∈
      (densityplot (DataArg.many ds) dl vn pe (ColorsArg.list cl) skip).1 := by
  have hto : ∀ ps ∈ (((ds.map convert_to_xarray).map
      (fun d => burnIn d skip)).map (fun d => xarray_var_iter d vn)),
      ps ≠ [] := by
    intro ps hps
    simp only [List.map_map, List.mem_map, Function.comp_def] at hps
    obtain ⟨d, hd, rfl⟩ := hps
    exact hne d hd
  have hren : renderAll cl 0 (((ds.map convert_to_xarray).map
      (fun d => burnIn d skip)).map (fun d => xarray_var_iter d vn)) =
      Except.error (PlotError.colorIndexOOB cl.length) := by
    apply renderAll_err cl _ 0 hto
    · simp
      omega
    · omega
  have hpanels : ((((ds.map convert_to_xarray).map
      (fun d => burnIn d skip)).map (fun d => xarray_var_iter d vn)).map
        (fun ps => ps.map
          (fun v => make_label v.name v.selection))).flatten.dedup =
      panelLabels ds vn skip := by
    simp only [panelLabels, List.map_map]
    rfl
  cases dl with
  | none =>
      simp only [densityplot, if_pos hpe, List.length_map, resolveColors]
      rw [hren, hpanels]
      simp
  | some l =>
      have hl : l.length = ds.length := hlab
      simp only [densityplot, if_pos hpe, List.length_map, resolveColors]
      rw [if_pos hl]
      dsimp only
      rw [hren, hpanels]
      simp

/-- Claim C10 witness: two datasets with an explicit one-color list:
the figure is created (one shared panel) and the call then fails with
the out-of-range index 1. -/
theorem densityplot_short_colors_oob_witness :
    ["k"].length < [exampleA, exampleB].length ∧
    ((densityplot (DataArg.many [exampleA, exampleB]) none none none
        (ColorsArg.list ["k"]) 0).2 =
      Except.error (PlotError.colorIndexOOB 1) ∧
    Event.figureCreated (panelLabels [exampleA, exampleB] none 0).length ∈
      (densityplot (DataArg.many [exampleA, exampleB]) none none none
        (ColorsArg.list ["k"]) 0).1) :=
  ⟨by decide,
   densityplot_short_colors_oob [exampleA, exampleB] ["k"] none none none 0
     (Or.inr (Or.inr rfl)) (by simp [labelsOk]) (by decide) (by decide)⟩

/-- Claim C5: panels are allocated per distinct display label across all
datasets (deduplicated, not summed per dataset): the figure-creation
step records exactly `(panelLabels ds vn skip).length` panels, a
successful call's panel list is that deduplicated label list, and when
more than one dataset is given, a legend with one entry per dataset is
attached to the first panel (index 0). -/
theorem densityplot_panels_dedup_legend (ds : List Dataset)
    (dl : Option (List String)) (vn : Option (List String))
    (pe : Option String) (c : ColorsArg) (skip : Nat)
    (hpe : pe = some "mean" ∨ pe = some "median" ∨ pe = none)
    (hlab : labelsOk dl ds.length) :
    Event.figureCreated (panelLabels ds vn skip).length ∈
      (densityplot (DataArg.many ds) dl vn pe c skip).1 ∧
    ∀ tr o, densityplot (DataArg.many ds) dl vn pe c skip =
        (tr, Except.ok o) →
      o.panels = panelLabels ds vn skip ∧
      (1 < ds.length →
        ∃ es, o.legend = some (0, es) ∧ es.length = ds.length) := by
  have hpanels : ((((ds.map convert_to_xarray).map
      (fun d => burnIn d skip)).map (fun d => xarray_var_iter d vn)).map
        (fun ps => ps.map
          (fun v => make_label v.name v.selection))).flatten.dedup =
      panelLabels ds vn skip := by
    simp only [panelLabels, List.map_map]
    rfl
  cases dl with
  | none =>
      constructor
      · simp only [densityplot, if_pos hpe, List.length_map]
        rw [hpanels]
        split
        · simp
        · split
          · split
            · simp
            · simp
          · simp
      · intro tr o heq
        simp only [densityplot, if_pos hpe, List.length_map] at heq
        rw [hpanels] at heq
        split at heq
        · simp at heq
        · rename_i rendered hra
          split at heq
          · rename_i hn
            split at heq
            · simp at heq
            · rename_i es hleg
              rw [Prod.mk.injEq] at heq
              obtain ⟨htr, ho⟩ := heq
              have ho' := Except.ok.inj ho
              subst ho'
              refine ⟨rfl, fun _ => ⟨es, rfl, ?_⟩⟩
              have := legendEntries_length (resolveColors c ds.length)
                (synthLabels ds.length) 0 es hleg
              rw [this]
              simp [synthLabels, hn]
          · rename_i hn
            rw [Prod.mk.injEq] at heq
            obtain ⟨htr, ho⟩ := heq
            have ho' := Except.ok.inj ho
            subst ho'
            exact ⟨rfl, fun h => absurd h hn⟩
  | some l =>
      have hl : l.length = ds.length := hlab
      constructor
      · simp only [densityplot, if_pos hpe, List.length_map]
        rw [if_pos hl]
        dsimp only
        rw [hpanels]
        split
        · simp
        · split
          · split
            · simp
            · simp
          · simp
      · intro tr o heq
        simp only [densityplot, if_pos hpe, List.length_map] at heq
        rw [if_pos hl] at heq
        dsimp only at heq
        rw [hpanels] at heq
        split at heq
        · simp at heq
        · rename_i rendered hra
          split at heq
          · rename_i hn
            split at heq
            · simp at heq
            · rename_i es hleg
              rw [Prod.mk.injEq] at heq
              obtain ⟨htr, ho⟩ := heq
              have ho' := Except.ok.inj ho
              subst ho'
              refine ⟨rfl, fun _ => ⟨es, rfl, ?_⟩⟩
              have := legendEntries_length (resolveColors c ds.length)
                l 0 es hleg
              rw [this, hl]
          · rename_i hn
            rw [Prod.mk.injEq] at heq
            obtain ⟨htr, ho⟩ := heq
            have ho' := Except.ok.inj ho
            subst ho'
            exact ⟨rfl, fun h => absurd h hn⟩

/-- Claim C5 witness: two datasets sharing the one display label `mu`
get a single panel, and the legend attached to panel 0 has one entry
per dataset (two entries). -/
theorem densityplot_panels_dedup_legend_witness :
    (Output.mk ["mu"] [(0, "mu", "C0"), (1, "mu", "C1")]
        (some (0, [("0", "C0"), ("1", "C1")]))).panels =
      panelLabels [exampleA, exampleB] none 0 ∧
    (1 < [exampleA, exampleB].length →
      ∃ es, (Output.mk ["mu"] [(0, "mu", "C0"), (1, "mu", "C1")]
          (some (0, [("0", "C0"), ("1", "C1")]))).legend = some (0, es) ∧
        es.length = [exampleA, exampleB].length) :=
  (densityplot_panels_dedup_legend [exampleA, exampleB] none none none
      (ColorsArg.str "cycle") 0 (Or.inr (Or.inr rfl)) (by simp [labelsOk])).2
    [Event.converted, Event.burnFiltered, Event.figureCreated 1,
      Event.legendAdded 2]
    (Output.mk ["mu"] [(0, "mu", "C0"), (1, "mu", "C1")]
      (some (0, [("0", "C0"), ("1", "C1")])))
    rfl

end Arviz
